import Mathlib

/-
Verification development for the HERE Maps MCP server (`src/node/index.ts`).

The TypeScript source is shallowly embedded:
* JSON payloads passed to `JSON.stringify` are modelled by the inductive
  `JVal`; the `text` field of a content item is either a plain template
  string or such a stringified JSON value (`MsgText`).
* JavaScript numbers carried in upstream responses (positions, durations,
  lengths, decoded coordinates) are modelled as rationals (`ℚ`);
  integer-valued request parameters that are interpolated into template
  strings (`radius`, `zoomLevel`) are modelled as `Int`, whose `toString`
  agrees with JavaScript number-to-string on integers.
* A thrown JavaScript exception is modelled as `Except.error` carrying the
  exception's message; the `try/catch` at the dispatch boundary is the
  function `dispatch` below.
* The upstream HTTP service is modelled as a `MockUpstream` record giving,
  for each network-backed tool, either the parsed JSON body that
  `await response.json()` produced (`Except.ok`) or the message of the
  exception the fetch/parse threw (`Except.error`).
-/

set_option linter.unusedVariables false

namespace HereMapsMcp

/-- JSON values, as handed to `JSON.stringify`.  Object fields are kept in
insertion order, which is the order `JSON.stringify` serializes them in. -/
inductive JVal where
  | jstr : String → JVal
  | jnum : ℚ → JVal
  | jbool : Bool → JVal
  | jnull : JVal
  | jarr : List JVal → JVal
  | jobj : List (String × JVal) → JVal

/-- The `text` field of a content item: either a plain template string or a
`JSON.stringify`-ed value.  (Stringification is injective, so comparing at
this level is faithful.) -/
inductive MsgText where
  | plain : String → MsgText
  | jsonOf : JVal → MsgText

/-- One element of the `content` array: `{ type: "text", text: ... }`. -/
structure ContentItem where
  ctype : String
  text : MsgText

/-- The uniform result envelope `{ content, isError }`. -/
structure Envelope where
  content : List ContentItem
  isError : Bool

/-- An envelope with a single text element and `isError: true`. -/
def errEnv (m : MsgText) : Envelope := ⟨[⟨"text", m⟩], true⟩

/-- An envelope with a single text element and `isError: false`. -/
def okEnv (m : MsgText) : Envelope := ⟨[⟨"text", m⟩], false⟩

/- Upstream response shapes, from the TypeScript interfaces.  The array
field that each handler guards with `!data.field || data.field.length === 0`
is modelled as an `Option` of a list: `none` is an absent/undefined field,
`some []` a present-but-empty array. -/

structure Position where
  lat : ℚ
  lng : ℚ

structure Address where
  label : String

structure GeoItem where
  title : String
  id : String
  position : Position
  address : Address

structure GeocodeResponse where
  items : Option (List GeoItem)

structure ReverseGeocodeResponse where
  items : Option (List GeoItem)

structure RouteSummary where
  duration : ℚ
  length : ℚ

structure RouteAction where
  instruction : String

/-- A route section; `polyline` is the encoded flexible polyline, modelled
as the list of alphabet positions (6-bit values) of its characters. -/
structure RouteSection where
  summary : RouteSummary
  actions : List RouteAction
  polyline : List Nat

structure Route where
  sections : List RouteSection

structure RoutingResponse where
  routes : Option (List Route)

structure PlaceCategory where
  name : String

structure PlaceItem where
  title : String
  address : Address
  position : Position
  categories : Option (List PlaceCategory)

structure PlacesSearchResponse where
  items : Option (List PlaceItem)

structure IncidentDetails where
  description : String
  startTime : String
  endTime : String
  criticality : String
  type : String

structure IncidentLocation where
  length : ℚ

structure TrafficResult where
  location : IncidentLocation
  incidentDetails : IncidentDetails

structure TrafficIncidentsResponse where
  sourceUpdated : String
  results : Option (List TrafficResult)

/-- `{ lat, lng }` position object as serialized by `JSON.stringify`. -/
def posJ (p : Position) : JVal :=
  .jobj [("lat", .jnum p.lat), ("lng", .jnum p.lng)]

/-- `handleGeocode` (source lines 257–294): the normalization step, taking
the parsed upstream body (or the thrown fetch/parse error). -/
def handleGeocode (address : String) (fetched : Except String GeocodeResponse) :
    Except String Envelope := do
  let data ← fetched
  match data.items with
  | none => pure (errEnv (.plain "Geocoding failed: No results found"))
  | some [] => pure (errEnv (.plain "Geocoding failed: No results found"))
  | some (item :: _) =>
      pure (okEnv (.jsonOf (.jobj
        [("location", posJ item.position),
         ("address", .jstr item.address.label),
         ("id", .jstr item.id)])))

/-- `handleReverseGeocode` (source lines 296–333). -/
def handleReverseGeocode (latitude longitude : ℚ)
    (fetched : Except String ReverseGeocodeResponse) : Except String Envelope := do
  let data ← fetched
  match data.items with
  | none => pure (errEnv (.plain "Reverse geocoding failed: No results found"))
  | some [] => pure (errEnv (.plain "Reverse geocoding failed: No results found"))
  | some (item :: _) =>
      pure (okEnv (.jsonOf (.jobj
        [("address", .jstr item.address.label),
         ("position", posJ item.position),
         ("id", .jstr item.id)])))

/-- The category of a place item: `item.categories?.[0]?.name || "Unknown"`.
An empty-string name is falsy in JavaScript, hence also maps to "Unknown". -/
def categoryName (cs : Option (List PlaceCategory)) : String :=
  match cs with
  | some (c :: _) => if c.name = "" then "Unknown" else c.name
  | _ => "Unknown"

/-- JSON object for one place item in the `handlePlacesSearch` payload. -/
def placeJ (item : PlaceItem) : JVal :=
  .jobj [("name", .jstr item.title),
         ("address", .jstr item.address.label),
         ("position", posJ item.position),
         ("category", .jstr (categoryName item.categories))]

/-- `handlePlacesSearch` (source lines 386–425). -/
def handlePlacesSearch (latitude longitude : ℚ) (query : String)
    (fetched : Except String PlacesSearchResponse) : Except String Envelope := do
  let data ← fetched
  match data.items with
  | none => pure (errEnv (.plain ("No places found for query: " ++ query)))
  | some [] => pure (errEnv (.plain ("No places found for query: " ++ query)))
  | some (item :: rest) =>
      pure (okEnv (.jsonOf (.jarr ((item :: rest).map placeJ))))

/- ------------------------------------------------------------------------
Flexible polyline codec.

The routing handler calls `decode` from the `@here/flexpolyline` package,
whose implementation is not part of this repository.
-/

/-- Modelled from the spec: the zig-zag signed decoding used by the polyline
codec ("variable-length, zig-zag-signed integers").  An odd unsigned value
`u` stands for `-(u+1)/2`, an even one for `u/2`. -/
def unzigzag (u : Nat) : Int :=
  if u % 2 = 1 then -(((u + 1) / 2 : Nat) : Int) else ((u / 2 : Nat) : Int)

/-- Zig-zag signed encoding, the inverse direction used by a reference
encoder. -/
def zigzag (n : Int) : Nat :=
  if 0 ≤ n then (2 * n).toNat else (-(2 * n) - 1).toNat

/-- Modelled from the spec: decoding the stream of characters (identified
with their 6-bit alphabet positions) into unsigned integers, five data bits
per character with continuation bit `0x20`.  A character outside the
64-character alphabet, or a stream ending inside a continuation sequence,
is a decode error. -/
def duvGo : List Nat → Nat → Nat → List Nat → Except String (List Nat)
  | [], _, shift, acc =>
      if shift = 0 then .ok acc.reverse else .error "Invalid encoding"
  | c :: cs, res, shift, acc =>
      if c ≥ 64 then .error "Invalid encoding"
      else if c < 32 then duvGo cs 0 0 ((res + c * 2 ^ shift) :: acc)
      else duvGo cs (res + (c - 32) * 2 ^ shift) (shift + 5) acc

/-- Modelled from the spec: the first pass of the codec, turning the encoded
string into the list of unsigned varint values. -/
def decodeUnsignedValues (encoded : List Nat) : Except String (List Nat) :=
  duvGo encoded 0 0 []

/-- The decoded polyline together with its header fields, mirroring the
object returned by the codec's `decode`.  Each point is a list of 2 (or,
with a third dimension, 3) rational coordinates. -/
structure DecodeResult where
  precision : Nat
  thirdDim : Nat
  thirdDimPrecision : Nat
  polyline : List (List ℚ)
deriving DecidableEq

/-- Modelled from the spec: the second pass of the codec.  Unsigned values
are zig-zag-decoded in groups of two (three with a third dimension) and
accumulated as deltas of the running scaled coordinates, each divided by
`10^precision` (`10^thirdDimPrecision` for the third axis).  A trailing
incomplete group is a decode error. -/
def decodePoints (factor factorZ : ℚ) :
    Bool → List Nat → Int → Int → Int → Except String (List (List ℚ))
  | false, [], _, _, _ => .ok []
  | false, [_], _, _, _ => .error "Invalid encoding"
  | false, a :: b :: rest, lastLat, lastLng, lastZ =>
      let la := lastLat + unzigzag a
      let lb := lastLng + unzigzag b
      (decodePoints factor factorZ false rest la lb lastZ).map
        (fun ps => [(la : ℚ) / factor, (lb : ℚ) / factor] :: ps)
  | true, [], _, _, _ => .ok []
  | true, [_], _, _, _ => .error "Invalid encoding"
  | true, [_, _], _, _, _ => .error "Invalid encoding"
  | true, a :: b :: c :: rest, lastLat, lastLng, lastZ =>
      let la := lastLat + unzigzag a
      let lb := lastLng + unzigzag b
      let lc := lastZ + unzigzag c
      (decodePoints factor factorZ true rest la lb lc).map
        (fun ps => [(la : ℚ) / factor, (lb : ℚ) / factor, (lc : ℚ) / factorZ] :: ps)

/-- Modelled from the spec: the codec's `decode`.  The first two unsigned
values form the header: a format version that must be `1`, then a content
value packing the precision (low 4 bits), the third-dimension type (next
3 bits) and the third-dimension precision (next 4 bits).  The remaining
values are delta-decoded into coordinates starting from the origin. -/
def decode (encoded : List Nat) : Except String DecodeResult := do
  let vals ← decodeUnsignedValues encoded
  match vals with
  | v :: c :: rest =>
      if v = 1 then
        let precision := c % 16
        let thirdDim := c / 16 % 8
        let tdp := c / 128 % 16
        let pts ← decodePoints ((10 : ℚ) ^ precision) ((10 : ℚ) ^ tdp)
          (thirdDim != 0) rest 0 0 0
        pure (⟨precision, thirdDim, tdp, pts⟩ : DecodeResult)
      else .error "Invalid format version"
  | _ => .error "Invalid format version"

/-- JSON object for one traffic incident in the success payload, drawn from
the nested `incidentDetails` object. -/
def incidentJ (r : TrafficResult) : JVal :=
  .jobj [("description", .jstr r.incidentDetails.description),
         ("startTime", .jstr r.incidentDetails.startTime),
         ("endTime", .jstr r.incidentDetails.endTime),
         ("type", .jstr r.incidentDetails.type),
         ("criticality", .jstr r.incidentDetails.criticality)]

/-- `handleTrafficIncidents` (source lines 427–480): truncates to the first
10 results via `data.results.slice(0, 10)`. -/
def handleTrafficIncidents (center : String) (radius : Int)
    (fetched : Except String TrafficIncidentsResponse) : Except String Envelope := do
  let data ← fetched
  match data.results with
  | none => pure (errEnv (.plain ("No traffic incidents found in the radius of "
      ++ toString radius ++ " meters around " ++ center)))
  | some [] => pure (errEnv (.plain ("No traffic incidents found in the radius of "
      ++ toString radius ++ " meters around " ++ center)))
  | some (r :: rest) =>
      pure (okEnv (.jsonOf (.jarr (((r :: rest).take 10).map incidentJ))))

/-- JavaScript `Math.round`: round half toward positive infinity. -/
def mathRound (q : ℚ) : ℤ := ⌊q + 1 / 2⌋

/-- JavaScript `parseFloat(x.toFixed(5))`: round to 5 decimal digits.
`toFixed` rounds ties away from zero on the decimal value. -/
def round5 (q : ℚ) : ℚ :=
  (if 0 ≤ q then (⌊q * 100000 + 1 / 2⌋ : ℚ) else -(⌊-(q * 100000) + 1 / 2⌋ : ℚ)) / 100000

/-- The per-point mapper in `handleRouting`:
`(point) => [parseFloat(point[0].toFixed(5)), parseFloat(point[1].toFixed(5))]`.
Decoded points always have at least two coordinates, so the `getD` defaults
are never used on codec output. -/
def routePointJ (p : List ℚ) : JVal :=
  .jarr [.jnum (round5 (p.getD 0 0)), .jnum (round5 (p.getD 1 0))]

/-- `handleRouting` (source lines 335–384).  Reading `sections[0].polyline`
of a route with no sections throws a `TypeError`; a malformed polyline makes
the codec's `decode` throw.  Both are modelled as `Except.error`. -/
def handleRouting (origin destination transportMode : String)
    (fetched : Except String RoutingResponse) : Except String Envelope := do
  let data ← fetched
  match data.routes with
  | none => pure (errEnv (.plain "Routing failed: No routes found"))
  | some [] => pure (errEnv (.plain "Routing failed: No routes found"))
  | some (route :: _) =>
      match route.sections with
      | [] => .error "Cannot read properties of undefined (reading 'polyline')"
      | sec :: _ => do
          let dr ← decode sec.polyline
          pure (okEnv (.jsonOf (.jobj
            [("summary", .jobj [("duration", .jnum sec.summary.duration),
                                ("length", .jnum sec.summary.length)]),
             ("polyline", .jarr (dr.polyline.map routePointJ)),
             ("actions", .jarr (sec.actions.map
               (fun a => .jobj [("instruction", .jstr a.instruction)])))])))

/-- The whitespace class of the JavaScript regex `\s`, restricted to the
characters relevant here. -/
def isJsSpace (c : Char) : Bool :=
  c = ' ' || c = '\t' || c = '\n' || c = '\r' || c = '\x0b' || c = '\x0c'
    || c = ' '

/-- `center.replace(/\s+/g, "")`: remove every whitespace character. -/
def jsStripSpaces (s : String) : String :=
  ⟨s.data.filter (fun c => !isJsSpace c)⟩

/-- The static-map URL built by `handleDisplay` (source lines 482–503). -/
def displayUrl (apiKey center : String) (zoomLevel : Int) (style : String) : String :=
  "https://maps.hereapi.com/mia/v3/base/mc/center:" ++ jsStripSpaces center
    ++ ";zoom=" ++ toString zoomLevel ++ "/480x370/png8?apikey=" ++ apiKey
    ++ "&style=" ++ style

/-- `handleDisplay` (source lines 482–503): pure URL construction, no fetch,
no failure path. -/
def handleDisplay (apiKey center : String) (zoomLevel : Int) (style : String) :
    Envelope :=
  okEnv (.jsonOf (.jobj [("image_url", .jstr (displayUrl apiKey center zoomLevel style))]))

/- ------------------------------------------------------------------------
The dispatcher (source lines 523–589).
-/

/-- The argument object of a tool call, after the unchecked TypeScript
`as`-cast in each dispatch branch. -/
inductive ToolArgs where
  | geocodeArgs (address : String)
  | reverseGeocodeArgs (latitude longitude : ℚ)
  | directionsArgs (origin destination transportMode : String)
  | searchPlacesArgs (latitude longitude : ℚ) (query : String)
  | trafficArgs (center : String) (radius : Int)
  | displayArgs (center : String) (zoomLevel : Int) (style : String)

/-- An incoming `CallToolRequest`: `request.params.name` and
`request.params.arguments`. -/
structure CallRequest where
  name : String
  arguments : ToolArgs

/-- The mocked upstream: for each network-backed tool, the parsed JSON body
(`.ok`) or the message of the exception thrown by the fetch/JSON parse
(`.error`). -/
structure MockUpstream where
  geocode : Except String GeocodeResponse
  reverseGeocode : Except String ReverseGeocodeResponse
  routing : Except String RoutingResponse
  placesSearch : Except String PlacesSearchResponse
  trafficIncidents : Except String TrafficIncidentsResponse

/- Projections modelling the unchecked `as`-cast: a mismatched argument
shape reads the fields as JavaScript `undefined`, approximated by the
defaults below (none of the claims exercises a mismatched shape). -/

def ToolArgs.asGeocode : ToolArgs → String
  | .geocodeArgs a => a
  | _ => "undefined"

def ToolArgs.asReverseGeocode : ToolArgs → ℚ × ℚ
  | .reverseGeocodeArgs la lo => (la, lo)
  | _ => (0, 0)

def ToolArgs.asDirections : ToolArgs → String × String × String
  | .directionsArgs o d m => (o, d, m)
  | _ => ("undefined", "undefined", "undefined")

def ToolArgs.asSearchPlaces : ToolArgs → ℚ × ℚ × String
  | .searchPlacesArgs la lo q => (la, lo, q)
  | _ => (0, 0, "undefined")

def ToolArgs.asTraffic : ToolArgs → String × Int
  | .trafficArgs c r => (c, r)
  | _ => ("undefined", 0)

def ToolArgs.asDisplay : ToolArgs → String × Int × String
  | .displayArgs c z s => (c, z, s)
  | _ => ("undefined", 0, "undefined")

/-- The six registered tool names, in registry order. -/
def toolNames : List String :=
  ["maps_geocode", "maps_reverse_geocode", "maps_directions",
   "maps_search_places", "maps_get_traffic_incidents", "maps_display"]

/-- The hosts fetched while serving a request: every network-backed tool
performs exactly one `fetch`; `maps_display` and unknown tools perform
none. -/
def outboundHosts (req : CallRequest) : List String :=
  if req.name = "maps_geocode" then ["https://geocode.search.hereapi.com/v1/geocode"]
  else if req.name = "maps_reverse_geocode" then
    ["https://revgeocode.search.hereapi.com/v1/revgeocode"]
  else if req.name = "maps_directions" then ["https://router.hereapi.com/v8/routes"]
  else if req.name = "maps_search_places" then
    ["https://discover.search.hereapi.com/v1/discover"]
  else if req.name = "maps_get_traffic_incidents" then
    ["https://data.traffic.hereapi.com/v7/incidents"]
  else []

/-- The body of the `CallToolRequestSchema` handler's `try` block: the
`switch` on the tool name.  The `default` branch returns the
"Unknown tool" envelope without throwing. -/
def dispatchInner (apiKey : String) (req : CallRequest) (up : MockUpstream) :
    Except String Envelope :=
  if req.name = "maps_geocode" then
    handleGeocode req.arguments.asGeocode up.geocode
  else if req.name = "maps_reverse_geocode" then
    handleReverseGeocode req.arguments.asReverseGeocode.1
      req.arguments.asReverseGeocode.2 up.reverseGeocode
  else if req.name = "maps_directions" then
    handleRouting req.arguments.asDirections.1 req.arguments.asDirections.2.1
      req.arguments.asDirections.2.2 up.routing
  else if req.name = "maps_search_places" then
    handlePlacesSearch req.arguments.asSearchPlaces.1
      req.arguments.asSearchPlaces.2.1 req.arguments.asSearchPlaces.2.2
      up.placesSearch
  else if req.name = "maps_get_traffic_incidents" then
    handleTrafficIncidents req.arguments.asTraffic.1 req.arguments.asTraffic.2
      up.trafficIncidents
  else if req.name = "maps_display" then
    pure (handleDisplay apiKey req.arguments.asDisplay.1
      req.arguments.asDisplay.2.1 req.arguments.asDisplay.2.2)
  else
    pure (errEnv (.plain ("Unknown tool: " ++ req.name)))

/-- The full `CallToolRequestSchema` handler: the `try/catch` wrapping
`dispatchInner`, converting any thrown exception into the
`Error: {message}` envelope.  Total by construction: every invocation
yields an envelope. -/
def dispatch (apiKey : String) (req : CallRequest) (up : MockUpstream) : Envelope :=
  match dispatchInner apiKey req up with
  | .ok env => env
  | .error m => errEnv (.plain ("Error: " ++ m))

/- ------------------------------------------------------------------------
Reference flexible-polyline encoder, for the round-trip property.
-/

/-- Modelled from the spec: unsigned varint encoding, five data bits per
character, continuation bit `0x20` on every chunk but the last. -/
def varintEncode (n : Nat) : List Nat :=
  if h : n < 32 then [n] else (32 + n % 32) :: varintEncode (n / 32)
decreasing_by exact Nat.div_lt_self (by omega) (by omega)

/-- Modelled from the spec: the reference encoder's coordinate scaling at
precision 5, `Math.round(value * 10^5)`. -/
def scalePoints (pts : List (ℚ × ℚ)) : List (Int × Int) :=
  pts.map (fun p => (mathRound (p.1 * 100000), mathRound (p.2 * 100000)))

/-- Modelled from the spec: delta/zig-zag encoding of the scaled points into
the unsigned value stream, accumulating from the previous scaled point. -/
def deltasOf : List (Int × Int) → Int → Int → List Nat
  | [], _, _ => []
  | (a, b) :: rest, lastLat, lastLng =>
      zigzag (a - lastLat) :: zigzag (b - lastLng) :: deltasOf rest a b

/-- Modelled from the spec: a reference encoder at precision 5 with no third
dimension.  Header values `1` (format version) and `5` (content: precision 5,
third dimension absent), then the delta-encoded scaled coordinates, each
value written as an unsigned varint. -/
def encodePolyline5 (pts : List (ℚ × ℚ)) : List Nat :=
  ((1 :: 5 :: deltasOf (scalePoints pts) 0 0).map varintEncode).flatten

/- Concrete mocks used by the witnesses. -/

/-- A mocked upstream whose every response is an absent result array. -/
def mockEmpty : MockUpstream :=
  ⟨.ok ⟨none⟩, .ok ⟨none⟩, .ok ⟨none⟩, .ok ⟨none⟩, .ok ⟨"", none⟩⟩

/-- A mocked upstream whose geocode fetch throws a network error. -/
def mockNetFail : MockUpstream :=
  ⟨.error "network failure", .ok ⟨none⟩, .ok ⟨none⟩, .ok ⟨none⟩, .ok ⟨"", none⟩⟩

/-- A routing response with one route, one section and the encoded polyline
`[1, 5, 0, 0]` (header version 1, precision 5, single point (0, 0)). -/
def wRoutingData : RoutingResponse :=
  ⟨some [⟨[⟨⟨100, 200⟩, [⟨"Turn left"⟩], [1, 5, 0, 0]⟩]⟩]⟩

/-- A routing response whose section polyline `[1, 21, 2, 2, 6]` decodes
with a third dimension (header content 21 = precision 5, third-dim type 1):
one point with latitude 1/100000, longitude 1/100000, level 3. -/
def wRouting3D : RoutingResponse :=
  ⟨some [⟨[⟨⟨7, 9⟩, [⟨"Continue"⟩], [1, 21, 2, 2, 6]⟩]⟩]⟩

/-- A concrete traffic incident for the truncation witness. -/
def wIncident (i : Nat) : TrafficResult :=
  ⟨⟨50⟩, ⟨"incident " ++ toString i, "t0", "t1", "minor", "congestion"⟩⟩

end HereMapsMcp

namespace HereMapsMcp

/- ------------------------------------------------------------------------
Theorems.
-/

/-- Claim C1: any exception raised during argument translation, the network
call or normalization is caught at the dispatch boundary and converted into
an `isError: true` envelope whose single text element is exactly
`Error: {message}`; the dispatch handler itself is total (it never raises),
so a per-request failure cannot terminate the process. -/
theorem claim_C1_dispatch_catches_errors :
    ∀ (apiKey : String) (req : CallRequest) (up : MockUpstream) (m : String),
      dispatchInner apiKey req up = .error m →
      dispatch apiKey req up = ⟨[⟨"text", .plain ("Error: " ++ m)⟩], true⟩ := by
  intro apiKey req up m h
  unfold dispatch
  rw [h]
  rfl

theorem claim_C1_witness :
    dispatch "k" ⟨"maps_geocode", .geocodeArgs "Berlin"⟩ mockNetFail
      = ⟨[⟨"text", .plain "Error: network failure"⟩], true⟩ :=
  claim_C1_dispatch_catches_errors "k" ⟨"maps_geocode", .geocodeArgs "Berlin"⟩
    mockNetFail "network failure" rfl

/-- Claim C2, counterexample: on an empty geocode result array the code's
error text is `Geocoding failed: No results found`, not the text
`no results found` that the claim states as exact. -/
theorem claim_C2_counterexample :
    handleGeocode "Central Berlin, Germany" (.ok ⟨some []⟩)
      = .ok ⟨[⟨"text", .plain "Geocoding failed: No results found"⟩], true⟩
    ∧ "Geocoding failed: No results found" ≠ "no results found" :=
  ⟨rfl, by decide⟩

/-- Claim C2, amended: for the five network-backed tools an empty result
array yields `isError: true` with the code's actual texts:
`Geocoding failed: No results found`, `Reverse geocoding failed: No results
found`, `Routing failed: No routes found`, `No places found for query:
{query}`, and `No traffic incidents found in the radius of {radius} meters
around {center}`.  (`maps_display` has no empty-result path at all.) -/
theorem claim_C2_amended_empty_result_texts :
    ∀ (address : String) (lat lng : ℚ)
      (origin destination mode query center : String) (radius : Int) (su : String),
      handleGeocode address (.ok ⟨some []⟩)
        = .ok (errEnv (.plain "Geocoding failed: No results found"))
      ∧ handleReverseGeocode lat lng (.ok ⟨some []⟩)
        = .ok (errEnv (.plain "Reverse geocoding failed: No results found"))
      ∧ handleRouting origin destination mode (.ok ⟨some []⟩)
        = .ok (errEnv (.plain "Routing failed: No routes found"))
      ∧ handlePlacesSearch lat lng query (.ok ⟨some []⟩)
        = .ok (errEnv (.plain ("No places found for query: " ++ query)))
      ∧ handleTrafficIncidents center radius (.ok ⟨su, some []⟩)
        = .ok (errEnv (.plain ("No traffic incidents found in the radius of "
            ++ toString radius ++ " meters around " ++ center))) := by
  intros
  exact ⟨rfl, rfl, rfl, rfl, rfl⟩

/-- Claim C3: on a non-empty traffic-incidents result list the success
payload is the first `min(n, 10)` results in upstream order, each mapped to
`{description, startTime, endTime, type, criticality}` from the nested
`incidentDetails` object. -/
theorem claim_C3_traffic_truncation :
    ∀ (center : String) (radius : Int) (su : String)
      (r : TrafficResult) (rest : List TrafficResult),
      handleTrafficIncidents center radius (.ok ⟨su, some (r :: rest)⟩)
        = .ok (okEnv (.jsonOf (.jarr (((r :: rest).take 10).map incidentJ))))
      ∧ (((r :: rest).take 10).map incidentJ).length = min ((r :: rest).length) 10 := by
  intro center radius su r rest
  refine ⟨rfl, ?_⟩
  simp only [List.length_map, List.length_take, List.length_cons]
  omega

/-- The success payload of `handleRouting`: first route, first section,
decoded polyline mapped through the rounding point mapper. -/
lemma handleRouting_ok (origin destination transportMode : String)
    (data : RoutingResponse) (route : Route) (rrest : List Route)
    (sec : RouteSection) (srest : List RouteSection) (dr : DecodeResult)
    (h1 : data.routes = some (route :: rrest))
    (h2 : route.sections = sec :: srest)
    (h3 : decode sec.polyline = .ok dr) :
    handleRouting origin destination transportMode (.ok data)
      = .ok (okEnv (.jsonOf (.jobj
          [("summary", .jobj [("duration", .jnum sec.summary.duration),
                              ("length", .jnum sec.summary.length)]),
           ("polyline", .jarr (dr.polyline.map routePointJ)),
           ("actions", .jarr (sec.actions.map
             (fun a => .jobj [("instruction", .jstr a.instruction)])))]))) := by
  obtain ⟨routes⟩ := data
  obtain ⟨sections⟩ := route
  dsimp only at h1 h2
  subst h1
  subst h2
  simp only [handleRouting, bind, Except.bind, h3, pure, Except.pure]

/-- Claim C4: on a routing response with a non-empty routes array (whose
first route has a section with a decodable polyline), `maps_directions`
takes the first route's first section, decodes its polyline, rounds each
coordinate to 5 decimal digits, and succeeds with payload
`{summary (duration, length), polyline, actions}`. -/
theorem claim_C4_directions_success :
    ∀ (origin destination transportMode : String)
      (data : RoutingResponse) (route : Route) (rrest : List Route)
      (sec : RouteSection) (srest : List RouteSection) (dr : DecodeResult),
      data.routes = some (route :: rrest) →
      route.sections = sec :: srest →
      decode sec.polyline = .ok dr →
      handleRouting origin destination transportMode (.ok data)
        = .ok (okEnv (.jsonOf (.jobj
            [("summary", .jobj [("duration", .jnum sec.summary.duration),
                                ("length", .jnum sec.summary.length)]),
             ("polyline", .jarr (dr.polyline.map routePointJ)),
             ("actions", .jarr (sec.actions.map
               (fun a => .jobj [("instruction", .jstr a.instruction)])))]))) :=
  fun o d m data route rrest sec srest dr h1 h2 h3 =>
    handleRouting_ok o d m data route rrest sec srest dr h1 h2 h3

theorem claim_C4_witness :
    handleRouting "52.5,13.4" "52.52,13.41" "car" (.ok wRoutingData)
      = .ok (okEnv (.jsonOf (.jobj
          [("summary", .jobj [("duration", .jnum 100), ("length", .jnum 200)]),
           ("polyline", .jarr (([[0, 0]] : List (List ℚ)).map routePointJ)),
           ("actions", .jarr [.jobj [("instruction", .jstr "Turn left")]])]))) :=
  claim_C4_directions_success "52.5,13.4" "52.52,13.41" "car" wRoutingData
    ⟨[⟨⟨100, 200⟩, [⟨"Turn left"⟩], [1, 5, 0, 0]⟩]⟩ []
    ⟨⟨100, 200⟩, [⟨"Turn left"⟩], [1, 5, 0, 0]⟩ [] ⟨5, 0, 0, [[0, 0]]⟩
    rfl rfl
    (by simp [decode, decodeUnsignedValues, duvGo, decodePoints, unzigzag, bind,
      Except.bind, Except.map, pure, Except.pure])

/-- Claim C10: each point of a `maps_directions` success polyline is exactly
a 2-element `[latitude, longitude]` array: the point mapper keeps only the
first two coordinates of a decoded point, so a third dimension carried by
the decoded polyline is silently discarded. -/
theorem claim_C10_polyline_two_dims :
    (∀ (lat lng : ℚ) (rest : List ℚ),
      routePointJ (lat :: lng :: rest) = .jarr [.jnum (round5 lat), .jnum (round5 lng)])
    ∧ (∀ p : List ℚ, ∃ a b : ℚ, routePointJ p = .jarr [.jnum a, .jnum b])
    ∧ (∀ (origin destination transportMode : String)
        (data : RoutingResponse) (route : Route) (rrest : List Route)
        (sec : RouteSection) (srest : List RouteSection) (dr : DecodeResult),
        data.routes = some (route :: rrest) →
        route.sections = sec :: srest →
        decode sec.polyline = .ok dr →
        handleRouting origin destination transportMode (.ok data)
          = .ok (okEnv (.jsonOf (.jobj
              [("summary", .jobj [("duration", .jnum sec.summary.duration),
                                  ("length", .jnum sec.summary.length)]),
               ("polyline", .jarr (dr.polyline.map routePointJ)),
               ("actions", .jarr (sec.actions.map
                 (fun a => .jobj [("instruction", .jstr a.instruction)])))])))) :=
  ⟨fun _ _ _ => rfl,
   fun p => ⟨round5 (p.getD 0 0), round5 (p.getD 1 0), rfl⟩,
   fun o d m data route rrest sec srest dr h1 h2 h3 =>
     handleRouting_ok o d m data route rrest sec srest dr h1 h2 h3⟩

theorem claim_C10_witness :
    routePointJ [1 / 100000, 1 / 100000, 3]
      = .jarr [.jnum (round5 (1 / 100000)), .jnum (round5 (1 / 100000))]
    ∧ handleRouting "a" "b" "car" (.ok wRouting3D)
      = .ok (okEnv (.jsonOf (.jobj
          [("summary", .jobj [("duration", .jnum 7), ("length", .jnum 9)]),
           ("polyline", .jarr (([[1 / 100000, 1 / 100000, 3]] : List (List ℚ)).map routePointJ)),
           ("actions", .jarr [.jobj [("instruction", .jstr "Continue")]])]))) :=
  ⟨claim_C10_polyline_two_dims.1 (1 / 100000) (1 / 100000) [3],
   claim_C10_polyline_two_dims.2.2 "a" "b" "car" wRouting3D
     ⟨[⟨⟨7, 9⟩, [⟨"Continue"⟩], [1, 21, 2, 2, 6]⟩]⟩ []
     ⟨⟨7, 9⟩, [⟨"Continue"⟩], [1, 21, 2, 2, 6]⟩ [] ⟨5, 1, 0, [[1 / 100000, 1 / 100000, 3]]⟩
     rfl rfl
     (by simp [decode, decodeUnsignedValues, duvGo, decodePoints, unzigzag, bind,
       Except.bind, Except.map, pure, Except.pure]; norm_num)⟩

/-- Claim C5: on a non-empty geocode item list the success payload is
`{location: first item's position, address: first item's address.label,
id: first item's id}`, the remaining items being discarded; instantiated at
the Berlin mock of the spec's example scenario. -/
theorem claim_C5_geocode_first_item :
    (∀ (address : String) (item : GeoItem) (rest : List GeoItem),
      handleGeocode address (.ok ⟨some (item :: rest)⟩)
        = .ok (okEnv (.jsonOf (.jobj
            [("location", posJ item.position),
             ("address", .jstr item.address.label),
             ("id", .jstr item.id)]))))
    ∧ handleGeocode "Central Berlin, Germany"
        (.ok ⟨some [⟨"Rosenthaler Straße 39", "here:pds:place:abc",
          ⟨5252427 / 100000, 134026 / 10000⟩,
          ⟨"Rosenthaler Straße 39, 10178 Berlin"⟩⟩]⟩)
      = .ok ⟨[⟨"text", .jsonOf (.jobj
          [("location", .jobj [("lat", .jnum (5252427 / 100000)),
                               ("lng", .jnum (134026 / 10000))]),
           ("address", .jstr "Rosenthaler Straße 39, 10178 Berlin"),
           ("id", .jstr "here:pds:place:abc")])⟩], false⟩ :=
  ⟨fun _ _ _ => rfl, rfl⟩

/-- Claim C6: `maps_display` performs no HTTP call and always returns a
success envelope whose payload is `{image_url}`, the URL containing the
substrings `center:{center with whitespace stripped};zoom={zoomLevel}` and
`style={style}`; instantiated at the spec's example
(center "52.5,13.4", zoom 14, style "explore.day"). -/
theorem claim_C6_display :
    (∀ (apiKey center : String) (zoomLevel : Int) (style : String),
      handleDisplay apiKey center zoomLevel style
        = ⟨[⟨"text", .jsonOf (.jobj
            [("image_url", .jstr (displayUrl apiKey center zoomLevel style))])⟩], false⟩
      ∧ outboundHosts ⟨"maps_display", .displayArgs center zoomLevel style⟩ = []
      ∧ (∃ p q, displayUrl apiKey center zoomLevel style
          = p ++ ("center:" ++ jsStripSpaces center ++ ";zoom=" ++ toString zoomLevel) ++ q)
      ∧ (∃ p, displayUrl apiKey center zoomLevel style = p ++ ("style=" ++ style)))
    ∧ displayUrl "k" "52.5,13.4" 14 "explore.day"
        = "https://maps.hereapi.com/mia/v3/base/mc/" ++ "center:52.5,13.4;zoom=14"
          ++ "/480x370/png8?apikey=k&" ++ "style=explore.day" := by
  refine ⟨fun apiKey center zoomLevel style => ⟨rfl, rfl, ?_, ?_⟩, rfl⟩
  · refine ⟨"https://maps.hereapi.com/mia/v3/base/mc/",
      "/480x370/png8?apikey=" ++ apiKey ++ "&style=" ++ style, ?_⟩
    unfold displayUrl
    rw [show ("https://maps.hereapi.com/mia/v3/base/mc/center:" : String)
      = "https://maps.hereapi.com/mia/v3/base/mc/" ++ "center:" from rfl]
    simp only [String.append_assoc]
  · refine ⟨"https://maps.hereapi.com/mia/v3/base/mc/center:" ++ jsStripSpaces center
      ++ ";zoom=" ++ toString zoomLevel ++ "/480x370/png8?apikey=" ++ apiKey ++ "&", ?_⟩
    unfold displayUrl
    rw [show ("&style=" : String) = "&" ++ "style=" from rfl]
    simp only [String.append_assoc]

/-- Claim C7: dispatching any tool name outside the six registered ones
yields, without raising, an `isError: true` envelope whose text is exactly
`Unknown tool: {name}`, regardless of the arguments and of the upstream. -/
theorem claim_C7_unknown_tool :
    ∀ (apiKey name : String) (args : ToolArgs) (up : MockUpstream),
      name ∉ toolNames →
      dispatch apiKey ⟨name, args⟩ up
        = ⟨[⟨"text", .plain ("Unknown tool: " ++ name)⟩], true⟩ := by
  intro apiKey name args up h
  simp only [toolNames, List.mem_cons, List.not_mem_nil, or_false, not_or] at h
  obtain ⟨h1, h2, h3, h4, h5, h6⟩ := h
  unfold dispatch dispatchInner
  simp only [h1, h2, h3, h4, h5, h6, if_false]
  rfl

theorem claim_C7_witness :
    dispatch "k" ⟨"maps_teleport", .geocodeArgs "x"⟩ mockEmpty
      = ⟨[⟨"text", .plain "Unknown tool: maps_teleport"⟩], true⟩ :=
  claim_C7_unknown_tool "k" "maps_teleport" (.geocodeArgs "x") mockEmpty (by decide)

/-- Claim C9: for each of the five network-backed tools, an upstream body
whose result array field is absent (`undefined`) is classified exactly like
a present-but-empty array: the same soft empty-result envelope, returned
normally (`.ok`, not a thrown `Error: {message}` fault). -/
theorem claim_C9_absent_field_as_empty :
    ∀ (address : String) (lat lng : ℚ)
      (origin destination mode query center : String) (radius : Int) (su : String),
      (handleGeocode address (.ok ⟨none⟩) = handleGeocode address (.ok ⟨some []⟩)
        ∧ handleGeocode address (.ok ⟨none⟩)
            = .ok (errEnv (.plain "Geocoding failed: No results found")))
      ∧ (handleReverseGeocode lat lng (.ok ⟨none⟩)
            = handleReverseGeocode lat lng (.ok ⟨some []⟩)
        ∧ handleReverseGeocode lat lng (.ok ⟨none⟩)
            = .ok (errEnv (.plain "Reverse geocoding failed: No results found")))
      ∧ (handleRouting origin destination mode (.ok ⟨none⟩)
            = handleRouting origin destination mode (.ok ⟨some []⟩)
        ∧ handleRouting origin destination mode (.ok ⟨none⟩)
            = .ok (errEnv (.plain "Routing failed: No routes found")))
      ∧ (handlePlacesSearch lat lng query (.ok ⟨none⟩)
            = handlePlacesSearch lat lng query (.ok ⟨some []⟩)
        ∧ handlePlacesSearch lat lng query (.ok ⟨none⟩)
            = .ok (errEnv (.plain ("No places found for query: " ++ query))))
      ∧ (handleTrafficIncidents center radius (.ok ⟨su, none⟩)
            = handleTrafficIncidents center radius (.ok ⟨su, some []⟩)
        ∧ handleTrafficIncidents center radius (.ok ⟨su, none⟩)
            = .ok (errEnv (.plain ("No traffic incidents found in the radius of "
                ++ toString radius ++ " meters around " ++ center)))) := by
  intros
  exact ⟨⟨rfl, rfl⟩, ⟨rfl, rfl⟩, ⟨rfl, rfl⟩, ⟨rfl, rfl⟩, ⟨rfl, rfl⟩⟩

/- ------------------------------------------------------------------------
Round-trip lemmas for the polyline codec.
-/

/-- Reading one varint-encoded value out of the character stream adds it,
scaled by the pending shift, to the accumulated result. -/
lemma duvGo_varint (n : Nat) :
    ∀ (rest : List Nat) (res shift : Nat) (acc : List Nat),
      duvGo (varintEncode n ++ rest) res shift acc
        = duvGo rest 0 0 ((res + n * 2 ^ shift) :: acc) := by
  induction n using Nat.strong_induction_on with
  | _ n ih =>
    intro rest res shift acc
    rw [varintEncode]
    by_cases h : n < 32
    · rw [dif_pos h]
      show duvGo (n :: rest) res shift acc = _
      simp only [duvGo]
      rw [if_neg (by omega), if_pos h]
    · rw [dif_neg h]
      show duvGo ((32 + n % 32) :: (varintEncode (n / 32) ++ rest)) res shift acc = _
      simp only [duvGo]
      rw [if_neg (by omega), if_neg (by omega)]
      rw [ih (n / 32) (by omega)]
      have hm : 32 + n % 32 - 32 = n % 32 := by omega
      have hp : (2 : Nat) ^ (shift + 5) = 2 ^ shift * 32 := by rw [pow_add]; norm_num
      have em : n % 32 + 32 * (n / 32) = n := Nat.mod_add_div n 32
      have : res + (32 + n % 32 - 32) * 2 ^ shift + n / 32 * 2 ^ (shift + 5)
          = res + n * 2 ^ shift := by
        rw [hm, hp]
        conv_rhs => rw [← em]
        ring
      rw [this]

/-- Decoding the concatenation of varint encodings recovers the values. -/
lemma duv_flatten (ns : List Nat) :
    ∀ acc : List Nat,
      duvGo ((ns.map varintEncode).flatten) 0 0 acc = .ok (acc.reverse ++ ns) := by
  induction ns with
  | nil => intro acc; simp [duvGo]
  | cons n ns ih =>
    intro acc
    simp only [List.map_cons, List.flatten_cons]
    rw [duvGo_varint, ih]
    simp

/-- Zig-zag decoding inverts zig-zag encoding. -/
lemma unzigzag_zigzag (z : Int) : unzigzag (zigzag z) = z := by
  rcases le_or_lt 0 z with h | h
  · simp only [zigzag, if_pos h, unzigzag]
    split <;> omega
  · simp only [zigzag, if_neg (not_le.mpr h), unzigzag]
    split <;> omega

/-- Delta-decoding the delta-encoded scaled coordinates recovers them,
divided by the precision factor. -/
lemma decodePoints_deltas (factor factorZ : ℚ) :
    ∀ (scaled : List (Int × Int)) (lastLat lastLng lastZ : Int),
      decodePoints factor factorZ false (deltasOf scaled lastLat lastLng)
          lastLat lastLng lastZ
        = .ok (scaled.map (fun p => [(p.1 : ℚ) / factor, (p.2 : ℚ) / factor])) := by
  intro scaled
  induction scaled with
  | nil => intro la lo lz; rfl
  | cons p rest ih =>
    intro la lo lz
    obtain ⟨a, b⟩ := p
    simp only [deltasOf, decodePoints, Bool.false_eq_true, if_false]
    rw [unzigzag_zigzag, unzigzag_zigzag]
    have e1 : la + (a - la) = a := by ring
    have e2 : lo + (b - lo) = b := by ring
    rw [e1, e2, ih]
    simp [Except.map]

/-- Decoding a polyline produced by the reference encoder yields header
(5, 0, 0) and the scaled points divided back by `10^5`. -/
lemma decode_encodePolyline5 (pts : List (ℚ × ℚ)) :
    decode (encodePolyline5 pts)
      = .ok ⟨5, 0, 0, (scalePoints pts).map
          (fun p => [(p.1 : ℚ) / 100000, (p.2 : ℚ) / 100000])⟩ := by
  unfold decode encodePolyline5 decodeUnsignedValues
  rw [duv_flatten]
  simp only [List.reverse_nil, List.nil_append, bind, Except.bind]
  norm_num
  rw [decodePoints_deltas]
  simp [pure, Except.pure]

/-- `Math.round` is within 1/2 of its argument. -/
lemma mathRound_near (x : ℚ) : |(mathRound x : ℚ) - x| ≤ 1 / 2 := by
  simp only [mathRound]
  rw [abs_le]
  constructor
  · linarith [Int.lt_floor_add_one (x + 1 / 2)]
  · linarith [Int.floor_le (x + 1 / 2)]

/-- Scaling by `10^5`, rounding and unscaling moves a coordinate by at most
`10^-5`. -/
lemma roundPoint_near (q : ℚ) :
    |(mathRound (q * 100000) : ℚ) / 100000 - q| ≤ 1 / 100000 := by
  have h := mathRound_near (q * 100000)
  have e : (mathRound (q * 100000) : ℚ) / 100000 - q
      = ((mathRound (q * 100000) : ℚ) - q * 100000) / 100000 := by ring
  rw [e, abs_div]
  rw [show |(100000 : ℚ)| = 100000 from by norm_num]
  rw [div_le_iff₀ (by norm_num : (0 : ℚ) < 100000)]
  linarith

/-- Pointwise error bound between the round-tripped coordinate list and the
original points, stated with total `getD` lookups. -/
lemma decoded_getD_near :
    ∀ (pts : List (ℚ × ℚ)) (i : Nat),
      |((pts.map (fun p => [(mathRound (p.1 * 100000) : ℚ) / 100000,
            (mathRound (p.2 * 100000) : ℚ) / 100000])).getD i []).getD 0 0
          - (pts.getD i (0, 0)).1| ≤ 1 / 100000
      ∧ |((pts.map (fun p => [(mathRound (p.1 * 100000) : ℚ) / 100000,
            (mathRound (p.2 * 100000) : ℚ) / 100000])).getD i []).getD 1 0
          - (pts.getD i (0, 0)).2| ≤ 1 / 100000 := by
  intro pts
  induction pts with
  | nil =>
      intro i
      constructor <;> · simp
  | cons p rest ih =>
      intro i
      cases i with
      | zero =>
          constructor
          · simp only [List.map_cons, List.getD_cons_zero]
            exact roundPoint_near p.1
          · simp only [List.map_cons, List.getD_cons_zero, List.getD_cons_succ]
            exact roundPoint_near p.2
      | succ i =>
          simp only [List.map_cons, List.getD_cons_succ]
          exact ih i

/-- Claim C8: encode-then-decode round trip.  For every coordinate sequence,
decoding the string produced by the reference flexible-polyline encoder (at
precision 5) succeeds, yields as many points as were encoded, and each axis
of each point is within `10^-5` of the original coordinate. -/
theorem claim_C8_roundtrip :
    ∀ pts : List (ℚ × ℚ), ∃ dr : DecodeResult,
      decode (encodePolyline5 pts) = .ok dr
      ∧ dr.polyline.length = pts.length
      ∧ ∀ i : Nat,
          |(dr.polyline.getD i []).getD 0 0 - (pts.getD i (0, 0)).1| ≤ 1 / 100000
          ∧ |(dr.polyline.getD i []).getD 1 0 - (pts.getD i (0, 0)).2| ≤ 1 / 100000 := by
  intro pts
  refine ⟨_, decode_encodePolyline5 pts, ?_, ?_⟩
  · simp [scalePoints]
  · intro i
    have h := decoded_getD_near pts i
    simpa [scalePoints, List.map_map, Function.comp] using h

end HereMapsMcp
